import Mathlib

/-!
# Shallow embedding of `src/frontend/src/services/websocket.js` (`WebSocketService`)

This file embeds the client-side resilient WebSocket channel of the repository
as a pure state machine.  Every definition below is translated from the source
file `websocket.js`; JavaScript mutation of `this` becomes explicit state
passing on the structure `WS.WSState`, browser socket events (`onopen`,
`onerror`, `onclose`), timer callbacks (`setTimeout` from `_attemptReconnect`,
`setInterval` from `_startHeartbeat`) and inbound messages become an event type
`WS.LEvent` interpreted by `WS.stepL`.  Callbacks are identified by numeric
ids; whether a given callback throws when invoked is an environment parameter
`throws : Nat → Bool`, and the `try { cb(...) } catch { console.error(...) }`
loops of the source are embedded by `WS.forEachGuarded` (with
`WS.forEachGuardedE` the same iteration written in the exception monad, used
to state that no exception escapes a dispatch).  `Math.random() * 1000` jitter
is modelled as a nonnegative integer supplied with each failure/timer event.
JWT decoding is abstracted: `Env.hasToken` stands for both `getToken()`
returning a truthy token and `getUserRoleFromToken()` returning a role.

Observation fields (`statusLog`, `notifyLog`, `invokeLog`, `errorLog`,
`pingsSent`, `attemptsMade`, `closedByClient`) are write-only bookkeeping that
records what the service did (statuses emitted to observers, callback
invocations, caught callback exceptions, pings sent, physical `new WebSocket`
constructions, sockets on which `ws.close()` was called); no code path of the
embedding reads them back.
-/

namespace WS

/-- The `connectionStatus` values of the service:
`'disconnected' | 'connecting' | 'connected' | 'error'`. -/
inductive Status
  | disconnected
  | connecting
  | connected
  | error
deriving DecidableEq

/-- Browser `WebSocket.readyState` values. -/
inductive ReadyState
  | CONNECTING
  | OPEN
  | CLOSING
  | CLOSED
deriving DecidableEq

/-- A physical WebSocket object: an identity (creation index) plus its
current `readyState`. -/
structure Socket where
  sid : Nat
  readyState : ReadyState
deriving DecidableEq

/-- A parsed inbound JSON message: its `type` discriminator plus an opaque
payload value standing for the rest of the object.  Forwarding the *whole*
structure to a callback models forwarding the whole parsed object. -/
structure Msg where
  type : String
  value : Nat
deriving DecidableEq

/-- External environment of a run: whether `getToken()` yields a usable token
(and hence `getUserRoleFromToken()` a role), and which callback ids throw
when invoked. -/
structure Env where
  hasToken : Bool
  throws : Nat → Bool

/-- The mutable fields of `WebSocketService` (constructor, lines 19-32),
plus bookkeeping of the run's observable actions. -/
structure WSState where
  ws : Option Socket
  reconnectAttempts : Nat
  maxReconnectAttempts : Nat
  reconnectDelay : Nat
  maxReconnectDelay : Nat
  /-- Field `this.listeners : Map<eventType, Set<callback>>` — association list in
  key-insertion order; each value is the `Set` as an insertion-ordered
  duplicate-free list of callback ids. -/
  listeners : List (String × List Nat)
  connectionStatus : Status
  /-- Field `this.statusListeners : Set<callback>` as an insertion-ordered list. -/
  statusListeners : List Nat
  isManuallyDisconnected : Bool
  /-- whether `this.heartbeatInterval` currently holds a live interval. -/
  heartbeatOn : Bool
  missedHeartbeats : Nat
  maxMissedHeartbeats : Nat
  /-- a reconnect `setTimeout` scheduled by `_attemptReconnect` is pending. -/
  pendingTimer : Bool
  /-- the current `_connect()` promise was created by the reconnect timer
  (so its rejection runs the backoff `catch` of `_attemptReconnect`). -/
  attemptFromTimer : Bool
  /-- the current `_connect()` promise has already settled
  (resolved by `onopen` or rejected by a failure). -/
  attemptSettled : Bool
  /-- number of `new WebSocket(...)` constructions performed. -/
  attemptsMade : Nat
  /-- sids of sockets on which the service called `ws.close(...)`. -/
  closedByClient : List Nat
  /-- statuses emitted to status observers, in order (one entry per
  non-suppressed `_setStatus` transition). -/
  statusLog : List Status
  /-- per-listener status notifications `(listener id, status)`, in order. -/
  notifyLog : List (Nat × Status)
  /-- number of `ping` frames sent by the heartbeat. -/
  pingsSent : Nat
  /-- message-callback invocations `(callback id, whole message)`, in order. -/
  invokeLog : List (Nat × Msg)
  /-- number of callback exceptions caught (the `console.error` sites inside
  `catch` blocks of `_handleMessage` and `_setStatus`). -/
  errorLog : Nat
  /-- next fresh socket id. -/
  nextSid : Nat
deriving DecidableEq

/-- The state built by the constructor (lines 19-32). -/
def initial : WSState where
  ws := none
  reconnectAttempts := 0
  maxReconnectAttempts := 5
  reconnectDelay := 1000
  maxReconnectDelay := 30000
  listeners := []
  connectionStatus := .disconnected
  statusListeners := []
  isManuallyDisconnected := false
  heartbeatOn := false
  missedHeartbeats := 0
  maxMissedHeartbeats := 3
  pendingTimer := false
  attemptFromTimer := false
  attemptSettled := true
  attemptsMade := 0
  closedByClient := []
  statusLog := []
  notifyLog := []
  pingsSent := 0
  invokeLog := []
  errorLog := 0
  nextSid := 0

/-! ## The listener registry (`Map<String, Set>` operations) -/

/-- Embeds `this.listeners.get(eventType)`, defaulting to the empty set. -/
def getListeners (l : List (String × List Nat)) (ty : String) : List Nat :=
  match l.find? (fun p => p.1 == ty) with
  | some p => p.2
  | none => []

/-- Embeds `this.listeners.has(eventType)`. -/
def hasType (l : List (String × List Nat)) (ty : String) : Bool :=
  (l.find? (fun p => p.1 == ty)).isSome

/-- Embeds `Set.prototype.add`: append if not already present. -/
def setAdd (s : List Nat) (cb : Nat) : List Nat :=
  if cb ∈ s then s else s ++ [cb]

/-- Embeds `Set.prototype.delete`. -/
def setDelete (s : List Nat) (cb : Nat) : List Nat :=
  s.filter (fun x => x ≠ cb)

/-- Applies `g` to the `Set` stored under key `ty` (the in-place mutation of
a `Map` value, rendered as a pure update of the association list). -/
def updateAt (l : List (String × List Nat)) (ty : String) (g : List Nat → List Nat) :
    List (String × List Nat) :=
  l.map (fun p => if p.1 == ty then (p.1, g p.2) else p)

/-- Embeds `on(eventType, callback)` lines 248-256: create the `Set` for the type if
missing, then `add` the callback (the returned unsubscribe closure is
`off eventType callback`, i.e. `removeListener`). -/
def addListener (l : List (String × List Nat)) (ty : String) (cb : Nat) :
    List (String × List Nat) :=
  if hasType l ty then
    updateAt l ty (fun s => setAdd s cb)
  else
    l ++ [(ty, setAdd [] cb)]

/-- Embeds `off(eventType, callback)` lines 258-265: delete the callback from the
type's `Set`; if the `Set` becomes empty, delete the type's entry. -/
def removeListener (l : List (String × List Nat)) (ty : String) (cb : Nat) :
    List (String × List Nat) :=
  if hasType l ty then
    let l' := updateAt l ty (fun s => setDelete s cb)
    if (getListeners l' ty).isEmpty then l'.filter (fun p => p.1 != ty) else l'
  else l

/-! ## Guarded callback iteration

`callbacks.forEach(cb => { try { cb(x) } catch (e) { console.error(...) } })`
(lines 189-195, 203-209, 272-278).  A call is recorded whether or not the
callback throws (a throwing callback did run); a thrown exception is caught
and counted.  `forEachGuardedE` is the same iteration written in the
exception monad: its staying in `Except.ok` is exactly "no exception
propagates out of the loop". -/

/-- One callback invocation: throws or returns, per the environment. -/
def callCb (throws : Nat → Bool) (cb : Nat) : Except Unit Unit :=
  if throws cb then Except.error () else Except.ok ()

/-- Guarded `forEach`: returns the invocation list (callback id paired with
the delivered value) and the number of caught exceptions. -/
def forEachGuarded {α : Type} (throws : Nat → Bool) (tag : α) :
    List Nat → List (Nat × α) × Nat
  | [] => ([], 0)
  | cb :: rest =>
    let caught : Nat :=
      match callCb throws cb with
      | Except.ok _ => 0
      | Except.error _ => 1
    let t := forEachGuarded throws tag rest
    ((cb, tag) :: t.1, caught + t.2)

/-- The same guarded `forEach` in the exception monad: each call is wrapped in
its own `try`/`catch`, so the only way an exception could escape is if some
call were left unguarded. -/
def forEachGuardedE {α : Type} (throws : Nat → Bool) (tag : α) :
    List Nat → Except Unit (List (Nat × α) × Nat)
  | [] => Except.ok ([], 0)
  | cb :: rest => do
    let caught : Nat ←
      match callCb throws cb with
      | Except.ok _ => Except.ok 0
      | Except.error _ => Except.ok 1
    let t ← forEachGuardedE throws tag rest
    Except.ok ((cb, tag) :: t.1, caught + t.2)

/-! ## Status transitions -/

/-- Embeds `_setStatus(status)` lines 268-280: suppress duplicate statuses; on a
real change, record the new status and notify every status listener inside
its own `try`/`catch`. -/
def setStatus (env : Env) (s : WSState) (st : Status) : WSState :=
  if s.connectionStatus = st then s
  else
    let r := forEachGuarded env.throws st s.statusListeners
    { s with
      connectionStatus := st
      statusLog := s.statusLog ++ [st]
      notifyLog := s.notifyLog ++ r.1
      errorLog := s.errorLog + r.2 }

/-! ## Heartbeat -/

/-- Embeds `_stopHeartbeat()` lines 164-170: clear the interval (if any) and zero
`missedHeartbeats`. -/
def stopHeartbeat (s : WSState) : WSState :=
  { s with heartbeatOn := false, missedHeartbeats := 0 }

/-- Embeds `_startHeartbeat()` lines 148-162: stop any existing heartbeat, then
install the interval (whose body is the `tickEvt` event below). -/
def startHeartbeat (s : WSState) : WSState :=
  { stopHeartbeat s with heartbeatOn := true }

/-! ## Reconnection -/

/-- Embeds `_attemptReconnect()` lines 214-245 up to scheduling the `setTimeout`:
bail out to `error` status when manually disconnected or attempts are
exhausted; otherwise bump the attempt counter, announce `connecting`, and
schedule the retry timer. -/
def attemptReconnect (env : Env) (s : WSState) : WSState :=
  if s.isManuallyDisconnected || decide (s.reconnectAttempts ≥ s.maxReconnectAttempts) then
    setStatus env s .error
  else
    let s := { s with reconnectAttempts := s.reconnectAttempts + 1 }
    let s := setStatus env s .connecting
    { s with pendingTimer := true }

/-- The `catch` attached by `_attemptReconnect` to the timer's `_connect()`
call (lines 230-242): it runs only when the current attempt was initiated by
the reconnect timer and its promise is still unsettled.  On the last
permitted attempt it reports `error`; in all cases it applies the backoff
update `reconnectDelay = min(reconnectDelay * 2 + jitter, maxReconnectDelay)`. -/
def rejectCatch (env : Env) (jitter : Nat) (s : WSState) : WSState :=
  if s.attemptFromTimer && !s.attemptSettled then
    let s :=
      if s.reconnectAttempts ≥ s.maxReconnectAttempts then setStatus env s .error else s
    { s with reconnectDelay := min (s.reconnectDelay * 2 + jitter) s.maxReconnectDelay }
  else s

/-! ## `_connect` and the socket event handlers -/

/-- The synchronous body of `_connect()` (lines 54-72): with no token, report
`error` (the promise rejects); otherwise announce `connecting` and construct
a fresh physical WebSocket, whose promise is now pending. -/
def connectInternal (env : Env) (s : WSState) : WSState :=
  if env.hasToken then
    let s := setStatus env s .connecting
    { s with
      ws := some { sid := s.nextSid, readyState := .CONNECTING }
      nextSid := s.nextSid + 1
      attemptsMade := s.attemptsMade + 1
      attemptSettled := false }
  else
    setStatus env s .error

/-- Embeds `ws.onopen` (lines 75-82): status `connected`, reset the attempt counter
and the backoff delay to the base `1000`, start the heartbeat; the `_connect`
promise resolves. -/
def onOpen (env : Env) (s : WSState) : WSState :=
  let s := { s with ws := s.ws.map (fun k => { k with readyState := .OPEN }) }
  let s := setStatus env s .connected
  let s := { s with reconnectAttempts := 0, reconnectDelay := 1000, attemptSettled := true }
  startHeartbeat s

/-- Embeds `ws.onerror` (lines 110-115): status `error`, stop the heartbeat, reject
the `_connect` promise. -/
def onErrorHandler (env : Env) (s : WSState) : WSState :=
  let s := setStatus env s .error
  stopHeartbeat s

/-- An error event together with the ensuing promise rejection: the handler
body, then (as a microtask) the reconnect-timer `catch` if this attempt's
promise was still pending, after which the promise is settled. -/
def onErrorEvt (env : Env) (jitter : Nat) (s : WSState) : WSState :=
  let s := onErrorHandler env s
  let s := rejectCatch env jitter s
  { s with attemptSettled := true }

/-- Embeds `ws.onclose` (lines 95-107): stop the heartbeat; settle into
`disconnected` when the close was manual or clean, otherwise run
`_attemptReconnect`. -/
def onCloseHandler (env : Env) (wasClean : Bool) (s : WSState) : WSState :=
  let s := stopHeartbeat s
  if s.isManuallyDisconnected || wasClean then setStatus env s .disconnected
  else attemptReconnect env s

/-- A handshake failure on the current socket: the socket closes, the browser
fires `error` (handler + promise rejection) and then `close` with
`wasClean = false`. -/
def handshakeFail (env : Env) (jitter : Nat) (s : WSState) : WSState :=
  let s := { s with ws := s.ws.map (fun k => { k with readyState := .CLOSED }) }
  let s := onErrorEvt env jitter s
  onCloseHandler env false s

/-! ## Public facade -/

/-- Embeds the role check and fall-through to `_connect` in `connect()`
(lines 42-51): with no role, stay `disconnected` and resolve immediately;
otherwise clear the manual flag and start a fresh physical attempt. -/
def connectFresh (env : Env) (s : WSState) : WSState × Bool :=
  if env.hasToken then
    let s := { s with isManuallyDisconnected := false }
    ({ connectInternal env s with attemptFromTimer := false }, false)
  else
    (setStatus env s .disconnected, true)

/-- Embeds `connect()` lines 35-52.  The boolean is `true` when the returned
promise is an immediately-resolved `Promise.resolve()` (already in flight, or
no token/role so "nothing to do yet"). -/
def connect (env : Env) (s : WSState) : WSState × Bool :=
  match s.ws with
  | some k =>
    if k.readyState = .CONNECTING ∨ k.readyState = .OPEN then (s, true)
    else connectFresh env s
  | none => connectFresh env s

/-- Embeds `disconnect()` lines 135-145: set the manual flag, stop the heartbeat,
`close(1000)` the socket if any and null the field, status `disconnected`. -/
def disconnect (env : Env) (s : WSState) : WSState :=
  let s := { s with isManuallyDisconnected := true }
  let s := stopHeartbeat s
  let s :=
    match s.ws with
    | some k => { s with ws := none, closedByClient := s.closedByClient ++ [k.sid] }
    | none => s
  setStatus env s .disconnected

/-- The reconnect timer firing (the `setTimeout` body, lines 227-244): only
if not manually disconnected, run `_connect()` with the backoff `catch`
attached; a token-less `_connect` rejects synchronously into that `catch`. -/
def timerFire (env : Env) (jitter : Nat) (s : WSState) : WSState :=
  if s.pendingTimer then
    let s := { s with pendingTimer := false }
    if s.isManuallyDisconnected then s
    else if env.hasToken then
      { connectInternal env s with attemptFromTimer := true }
    else
      let s := { connectInternal env s with attemptFromTimer := true }
      let s := rejectCatch env jitter s
      { s with attemptSettled := true }
  else s

/-- One heartbeat interval tick (the `setInterval` body, lines 151-161):
while the socket is open, send a `ping`, bump `missedHeartbeats`, and when
the ceiling is reached run `_attemptReconnect`. -/
def heartbeatTick (env : Env) (s : WSState) : WSState :=
  if s.heartbeatOn then
    match s.ws with
    | some k =>
      if k.readyState = .OPEN then
        let s := { s with pingsSent := s.pingsSent + 1,
                          missedHeartbeats := s.missedHeartbeats + 1 }
        if s.missedHeartbeats ≥ s.maxMissedHeartbeats then attemptReconnect env s else s
      else s
    | none => s
  else s

/-- The dispatch targets of one inbound message (`_handleMessage` lines
185-210): the callbacks registered under the message's own type (guarded by
the truthiness check `data.type &&`), followed by the callbacks registered
under the generic `"message"` sentinel. -/
def dispatchTargets (l : List (String × List Nat)) (m : Msg) : List Nat :=
  (if m.type ≠ "" ∧ hasType l m.type then getListeners l m.type else []) ++
    (if hasType l "message" then getListeners l "message" else [])

/-- Embeds `_handleMessage(data)` lines 173-211: reset `missedHeartbeats` on any
inbound message; consume `pong`; otherwise invoke every dispatch target with
the whole message, each inside its own `try`/`catch`. -/
def handleMessage (throws : Nat → Bool) (s : WSState) (m : Msg) : WSState :=
  let s0 := { s with missedHeartbeats := 0 }
  if m.type = "pong" then s0
  else
    let r := forEachGuarded throws m (dispatchTargets s.listeners m)
    { s0 with invokeLog := s0.invokeLog ++ r.1, errorLog := s0.errorLog + r.2 }

/-- Embeds `on(eventType, callback)` at the service level. -/
def onEvent (s : WSState) (ty : String) (cb : Nat) : WSState :=
  { s with listeners := addListener s.listeners ty cb }

/-- Embeds `off(eventType, callback)` at the service level (also the unsubscribe
closure returned by `on`). -/
def offEvent (s : WSState) (ty : String) (cb : Nat) : WSState :=
  { s with listeners := removeListener s.listeners ty cb }

/-! ## The connection-lifecycle event interpreter -/

/-- Connection-lifecycle events: the consumer's connect/disconnect requests,
the socket events, the reconnect timer, the heartbeat interval, and inbound
messages.  (Registry mutation via `onEvent`/`offEvent` is a separate consumer
operation, exactly as `on`/`off` are plain methods in the source.) -/
inductive LEvent
  | connectReq
  | disconnectReq
  | openEvt
  | failEvt (jitter : Nat)
  | closeEvt (wasClean : Bool)
  | errorEvt (jitter : Nat)
  | timerEvt (jitter : Nat)
  | tickEvt
  | msgEvt (m : Msg)
deriving DecidableEq

/-- Interpret one lifecycle event. -/
def stepL (env : Env) (s : WSState) (e : LEvent) : WSState :=
  match e with
  | .connectReq => (connect env s).1
  | .disconnectReq => disconnect env s
  | .openEvt => onOpen env s
  | .failEvt j => handshakeFail env j s
  | .closeEvt wc => onCloseHandler env wc s
  | .errorEvt j => onErrorEvt env j s
  | .timerEvt j => timerFire env j s
  | .tickEvt => heartbeatTick env s
  | .msgEvt m => handleMessage env.throws s m

/-- Run a sequence of lifecycle events. -/
def run (env : Env) (s : WSState) (es : List LEvent) : WSState :=
  es.foldl (stepL env) s

/-! ## Helper lemmas about the guarded callback iteration -/

theorem forEachGuarded_fst {α : Type} (throws : Nat → Bool) (tag : α) (ls : List Nat) :
    (forEachGuarded throws tag ls).1 = ls.map (fun cb => (cb, tag)) := by
  induction ls with
  | nil => rfl
  | cons cb rest ih => simp [forEachGuarded, ih]

theorem forEachGuarded_snd {α : Type} (throws : Nat → Bool) (tag : α) (ls : List Nat) :
    (forEachGuarded throws tag ls).2 = (ls.filter throws).length := by
  induction ls with
  | nil => rfl
  | cons cb rest ih =>
    cases h : throws cb <;>
      simp [forEachGuarded, callCb, h, ih, List.filter_cons, Nat.add_comm]

theorem forEachGuardedE_eq {α : Type} (throws : Nat → Bool) (tag : α) (ls : List Nat) :
    forEachGuardedE throws tag ls = Except.ok (forEachGuarded throws tag ls) := by
  induction ls with
  | nil => rfl
  | cons cb rest ih =>
    cases h : throws cb <;>
      simp [forEachGuardedE, forEachGuarded, callCb, h, ih, Except.bind, bind]

/-! ## Projection lemmas: which fields each operation leaves untouched -/

@[simp] theorem setStatus_listeners (env : Env) (s : WSState) (st : Status) :
    (setStatus env s st).listeners = s.listeners := by
  unfold setStatus; split <;> rfl

@[simp] theorem setStatus_statusListeners (env : Env) (s : WSState) (st : Status) :
    (setStatus env s st).statusListeners = s.statusListeners := by
  unfold setStatus; split <;> rfl

@[simp] theorem setStatus_ws (env : Env) (s : WSState) (st : Status) :
    (setStatus env s st).ws = s.ws := by
  unfold setStatus; split <;> rfl

@[simp] theorem setStatus_isManuallyDisconnected (env : Env) (s : WSState) (st : Status) :
    (setStatus env s st).isManuallyDisconnected = s.isManuallyDisconnected := by
  unfold setStatus; split <;> rfl

@[simp] theorem setStatus_attemptsMade (env : Env) (s : WSState) (st : Status) :
    (setStatus env s st).attemptsMade = s.attemptsMade := by
  unfold setStatus; split <;> rfl

@[simp] theorem setStatus_reconnectDelay (env : Env) (s : WSState) (st : Status) :
    (setStatus env s st).reconnectDelay = s.reconnectDelay := by
  unfold setStatus; split <;> rfl

@[simp] theorem setStatus_maxReconnectDelay (env : Env) (s : WSState) (st : Status) :
    (setStatus env s st).maxReconnectDelay = s.maxReconnectDelay := by
  unfold setStatus; split <;> rfl

@[simp] theorem setStatus_reconnectAttempts (env : Env) (s : WSState) (st : Status) :
    (setStatus env s st).reconnectAttempts = s.reconnectAttempts := by
  unfold setStatus; split <;> rfl

@[simp] theorem setStatus_maxReconnectAttempts (env : Env) (s : WSState) (st : Status) :
    (setStatus env s st).maxReconnectAttempts = s.maxReconnectAttempts := by
  unfold setStatus; split <;> rfl

@[simp] theorem setStatus_attemptFromTimer (env : Env) (s : WSState) (st : Status) :
    (setStatus env s st).attemptFromTimer = s.attemptFromTimer := by
  unfold setStatus; split <;> rfl

@[simp] theorem setStatus_attemptSettled (env : Env) (s : WSState) (st : Status) :
    (setStatus env s st).attemptSettled = s.attemptSettled := by
  unfold setStatus; split <;> rfl

@[simp] theorem setStatus_heartbeatOn (env : Env) (s : WSState) (st : Status) :
    (setStatus env s st).heartbeatOn = s.heartbeatOn := by
  unfold setStatus; split <;> rfl

@[simp] theorem setStatus_missedHeartbeats (env : Env) (s : WSState) (st : Status) :
    (setStatus env s st).missedHeartbeats = s.missedHeartbeats := by
  unfold setStatus; split <;> rfl

@[simp] theorem setStatus_maxMissedHeartbeats (env : Env) (s : WSState) (st : Status) :
    (setStatus env s st).maxMissedHeartbeats = s.maxMissedHeartbeats := by
  unfold setStatus; split <;> rfl

@[simp] theorem setStatus_pendingTimer (env : Env) (s : WSState) (st : Status) :
    (setStatus env s st).pendingTimer = s.pendingTimer := by
  unfold setStatus; split <;> rfl

@[simp] theorem setStatus_closedByClient (env : Env) (s : WSState) (st : Status) :
    (setStatus env s st).closedByClient = s.closedByClient := by
  unfold setStatus; split <;> rfl

@[simp] theorem setStatus_pingsSent (env : Env) (s : WSState) (st : Status) :
    (setStatus env s st).pingsSent = s.pingsSent := by
  unfold setStatus; split <;> rfl

@[simp] theorem setStatus_invokeLog (env : Env) (s : WSState) (st : Status) :
    (setStatus env s st).invokeLog = s.invokeLog := by
  unfold setStatus; split <;> rfl

@[simp] theorem setStatus_nextSid (env : Env) (s : WSState) (st : Status) :
    (setStatus env s st).nextSid = s.nextSid := by
  unfold setStatus; split <;> rfl

theorem setStatus_connectionStatus (env : Env) (s : WSState) (st : Status) :
    (setStatus env s st).connectionStatus = st := by
  unfold setStatus
  split
  · next h => exact h
  · rfl

@[simp] theorem attemptReconnect_listeners (env : Env) (s : WSState) :
    (attemptReconnect env s).listeners = s.listeners := by
  unfold attemptReconnect; split <;> simp

@[simp] theorem attemptReconnect_statusListeners (env : Env) (s : WSState) :
    (attemptReconnect env s).statusListeners = s.statusListeners := by
  unfold attemptReconnect; split <;> simp

@[simp] theorem attemptReconnect_ws (env : Env) (s : WSState) :
    (attemptReconnect env s).ws = s.ws := by
  unfold attemptReconnect; split <;> simp

@[simp] theorem attemptReconnect_isManuallyDisconnected (env : Env) (s : WSState) :
    (attemptReconnect env s).isManuallyDisconnected = s.isManuallyDisconnected := by
  unfold attemptReconnect; split <;> simp

@[simp] theorem attemptReconnect_attemptsMade (env : Env) (s : WSState) :
    (attemptReconnect env s).attemptsMade = s.attemptsMade := by
  unfold attemptReconnect; split <;> simp

@[simp] theorem attemptReconnect_reconnectDelay (env : Env) (s : WSState) :
    (attemptReconnect env s).reconnectDelay = s.reconnectDelay := by
  unfold attemptReconnect; split <;> simp

@[simp] theorem attemptReconnect_maxReconnectDelay (env : Env) (s : WSState) :
    (attemptReconnect env s).maxReconnectDelay = s.maxReconnectDelay := by
  unfold attemptReconnect; split <;> simp

@[simp] theorem attemptReconnect_maxReconnectAttempts (env : Env) (s : WSState) :
    (attemptReconnect env s).maxReconnectAttempts = s.maxReconnectAttempts := by
  unfold attemptReconnect; split <;> simp

@[simp] theorem attemptReconnect_heartbeatOn (env : Env) (s : WSState) :
    (attemptReconnect env s).heartbeatOn = s.heartbeatOn := by
  unfold attemptReconnect; split <;> simp

@[simp] theorem attemptReconnect_missedHeartbeats (env : Env) (s : WSState) :
    (attemptReconnect env s).missedHeartbeats = s.missedHeartbeats := by
  unfold attemptReconnect; split <;> simp

@[simp] theorem attemptReconnect_maxMissedHeartbeats (env : Env) (s : WSState) :
    (attemptReconnect env s).maxMissedHeartbeats = s.maxMissedHeartbeats := by
  unfold attemptReconnect; split <;> simp

@[simp] theorem attemptReconnect_closedByClient (env : Env) (s : WSState) :
    (attemptReconnect env s).closedByClient = s.closedByClient := by
  unfold attemptReconnect; split <;> simp

@[simp] theorem attemptReconnect_pingsSent (env : Env) (s : WSState) :
    (attemptReconnect env s).pingsSent = s.pingsSent := by
  unfold attemptReconnect; split <;> simp

@[simp] theorem attemptReconnect_nextSid (env : Env) (s : WSState) :
    (attemptReconnect env s).nextSid = s.nextSid := by
  unfold attemptReconnect; split <;> simp

@[simp] theorem attemptReconnect_invokeLog (env : Env) (s : WSState) :
    (attemptReconnect env s).invokeLog = s.invokeLog := by
  unfold attemptReconnect; split <;> simp

@[simp] theorem attemptReconnect_attemptFromTimer (env : Env) (s : WSState) :
    (attemptReconnect env s).attemptFromTimer = s.attemptFromTimer := by
  unfold attemptReconnect; split <;> simp

@[simp] theorem attemptReconnect_attemptSettled (env : Env) (s : WSState) :
    (attemptReconnect env s).attemptSettled = s.attemptSettled := by
  unfold attemptReconnect; split <;> simp

@[simp] theorem rejectCatch_listeners (env : Env) (j : Nat) (s : WSState) :
    (rejectCatch env j s).listeners = s.listeners := by
  unfold rejectCatch; split <;> (try split) <;> simp

@[simp] theorem rejectCatch_statusListeners (env : Env) (j : Nat) (s : WSState) :
    (rejectCatch env j s).statusListeners = s.statusListeners := by
  unfold rejectCatch; split <;> (try split) <;> simp

@[simp] theorem rejectCatch_ws (env : Env) (j : Nat) (s : WSState) :
    (rejectCatch env j s).ws = s.ws := by
  unfold rejectCatch; split <;> (try split) <;> simp

@[simp] theorem rejectCatch_isManuallyDisconnected (env : Env) (j : Nat) (s : WSState) :
    (rejectCatch env j s).isManuallyDisconnected = s.isManuallyDisconnected := by
  unfold rejectCatch; split <;> (try split) <;> simp

@[simp] theorem rejectCatch_attemptsMade (env : Env) (j : Nat) (s : WSState) :
    (rejectCatch env j s).attemptsMade = s.attemptsMade := by
  unfold rejectCatch; split <;> (try split) <;> simp

@[simp] theorem rejectCatch_reconnectAttempts (env : Env) (j : Nat) (s : WSState) :
    (rejectCatch env j s).reconnectAttempts = s.reconnectAttempts := by
  unfold rejectCatch; split <;> (try split) <;> simp

@[simp] theorem rejectCatch_maxReconnectAttempts (env : Env) (j : Nat) (s : WSState) :
    (rejectCatch env j s).maxReconnectAttempts = s.maxReconnectAttempts := by
  unfold rejectCatch; split <;> (try split) <;> simp

@[simp] theorem rejectCatch_maxReconnectDelay (env : Env) (j : Nat) (s : WSState) :
    (rejectCatch env j s).maxReconnectDelay = s.maxReconnectDelay := by
  unfold rejectCatch; split <;> (try split) <;> simp

@[simp] theorem rejectCatch_heartbeatOn (env : Env) (j : Nat) (s : WSState) :
    (rejectCatch env j s).heartbeatOn = s.heartbeatOn := by
  unfold rejectCatch; split <;> (try split) <;> simp

@[simp] theorem rejectCatch_missedHeartbeats (env : Env) (j : Nat) (s : WSState) :
    (rejectCatch env j s).missedHeartbeats = s.missedHeartbeats := by
  unfold rejectCatch; split <;> (try split) <;> simp

@[simp] theorem rejectCatch_maxMissedHeartbeats (env : Env) (j : Nat) (s : WSState) :
    (rejectCatch env j s).maxMissedHeartbeats = s.maxMissedHeartbeats := by
  unfold rejectCatch; split <;> (try split) <;> simp

@[simp] theorem rejectCatch_pendingTimer (env : Env) (j : Nat) (s : WSState) :
    (rejectCatch env j s).pendingTimer = s.pendingTimer := by
  unfold rejectCatch; split <;> (try split) <;> simp

@[simp] theorem rejectCatch_closedByClient (env : Env) (j : Nat) (s : WSState) :
    (rejectCatch env j s).closedByClient = s.closedByClient := by
  unfold rejectCatch; split <;> (try split) <;> simp

@[simp] theorem rejectCatch_pingsSent (env : Env) (j : Nat) (s : WSState) :
    (rejectCatch env j s).pingsSent = s.pingsSent := by
  unfold rejectCatch; split <;> (try split) <;> simp

@[simp] theorem rejectCatch_nextSid (env : Env) (j : Nat) (s : WSState) :
    (rejectCatch env j s).nextSid = s.nextSid := by
  unfold rejectCatch; split <;> (try split) <;> simp

@[simp] theorem rejectCatch_invokeLog (env : Env) (j : Nat) (s : WSState) :
    (rejectCatch env j s).invokeLog = s.invokeLog := by
  unfold rejectCatch; split <;> (try split) <;> simp

@[simp] theorem connectInternal_listeners (env : Env) (s : WSState) :
    (connectInternal env s).listeners = s.listeners := by
  unfold connectInternal; split <;> simp

@[simp] theorem connectInternal_statusListeners (env : Env) (s : WSState) :
    (connectInternal env s).statusListeners = s.statusListeners := by
  unfold connectInternal; split <;> simp

@[simp] theorem connectInternal_isManuallyDisconnected (env : Env) (s : WSState) :
    (connectInternal env s).isManuallyDisconnected = s.isManuallyDisconnected := by
  unfold connectInternal; split <;> simp

@[simp] theorem connectInternal_missedHeartbeats (env : Env) (s : WSState) :
    (connectInternal env s).missedHeartbeats = s.missedHeartbeats := by
  unfold connectInternal; split <;> simp

@[simp] theorem connectInternal_heartbeatOn (env : Env) (s : WSState) :
    (connectInternal env s).heartbeatOn = s.heartbeatOn := by
  unfold connectInternal; split <;> simp

@[simp] theorem connectInternal_closedByClient (env : Env) (s : WSState) :
    (connectInternal env s).closedByClient = s.closedByClient := by
  unfold connectInternal; split <;> simp

@[simp] theorem connectInternal_pingsSent (env : Env) (s : WSState) :
    (connectInternal env s).pingsSent = s.pingsSent := by
  unfold connectInternal; split <;> simp

@[simp] theorem connectInternal_invokeLog (env : Env) (s : WSState) :
    (connectInternal env s).invokeLog = s.invokeLog := by
  unfold connectInternal; split <;> simp

@[simp] theorem connectInternal_maxReconnectAttempts (env : Env) (s : WSState) :
    (connectInternal env s).maxReconnectAttempts = s.maxReconnectAttempts := by
  unfold connectInternal; split <;> simp

@[simp] theorem connectInternal_maxReconnectDelay (env : Env) (s : WSState) :
    (connectInternal env s).maxReconnectDelay = s.maxReconnectDelay := by
  unfold connectInternal; split <;> simp

@[simp] theorem connectInternal_reconnectDelay (env : Env) (s : WSState) :
    (connectInternal env s).reconnectDelay = s.reconnectDelay := by
  unfold connectInternal; split <;> simp

@[simp] theorem connectInternal_reconnectAttempts (env : Env) (s : WSState) :
    (connectInternal env s).reconnectAttempts = s.reconnectAttempts := by
  unfold connectInternal; split <;> simp

@[simp] theorem connectInternal_maxMissedHeartbeats (env : Env) (s : WSState) :
    (connectInternal env s).maxMissedHeartbeats = s.maxMissedHeartbeats := by
  unfold connectInternal; split <;> simp

@[simp] theorem connectInternal_pendingTimer (env : Env) (s : WSState) :
    (connectInternal env s).pendingTimer = s.pendingTimer := by
  unfold connectInternal; split <;> simp

@[simp] theorem connectFresh_fst_listeners (env : Env) (s : WSState) :
    (connectFresh env s).1.listeners = s.listeners := by
  unfold connectFresh; split <;> simp

@[simp] theorem connectFresh_fst_statusListeners (env : Env) (s : WSState) :
    (connectFresh env s).1.statusListeners = s.statusListeners := by
  unfold connectFresh; split <;> simp

@[simp] theorem connect_fst_listeners (env : Env) (s : WSState) :
    (connect env s).1.listeners = s.listeners := by
  unfold connect; cases hws : s.ws <;> simp [hws] <;> split <;> simp

@[simp] theorem connect_fst_statusListeners (env : Env) (s : WSState) :
    (connect env s).1.statusListeners = s.statusListeners := by
  unfold connect; cases hws : s.ws <;> simp [hws] <;> split <;> simp

@[simp] theorem stopHeartbeat_listeners (s : WSState) :
    (stopHeartbeat s).listeners = s.listeners := by
  rfl

@[simp] theorem stopHeartbeat_statusListeners (s : WSState) :
    (stopHeartbeat s).statusListeners = s.statusListeners := by
  rfl

@[simp] theorem stopHeartbeat_ws (s : WSState) :
    (stopHeartbeat s).ws = s.ws := by
  rfl

@[simp] theorem stopHeartbeat_isManuallyDisconnected (s : WSState) :
    (stopHeartbeat s).isManuallyDisconnected = s.isManuallyDisconnected := by
  rfl

@[simp] theorem stopHeartbeat_attemptsMade (s : WSState) :
    (stopHeartbeat s).attemptsMade = s.attemptsMade := by
  rfl

@[simp] theorem stopHeartbeat_connectionStatus (s : WSState) :
    (stopHeartbeat s).connectionStatus = s.connectionStatus := by
  rfl

@[simp] theorem stopHeartbeat_reconnectDelay (s : WSState) :
    (stopHeartbeat s).reconnectDelay = s.reconnectDelay := by
  rfl

@[simp] theorem stopHeartbeat_maxReconnectDelay (s : WSState) :
    (stopHeartbeat s).maxReconnectDelay = s.maxReconnectDelay := by
  rfl

@[simp] theorem stopHeartbeat_reconnectAttempts (s : WSState) :
    (stopHeartbeat s).reconnectAttempts = s.reconnectAttempts := by
  rfl

@[simp] theorem stopHeartbeat_maxReconnectAttempts (s : WSState) :
    (stopHeartbeat s).maxReconnectAttempts = s.maxReconnectAttempts := by
  rfl

@[simp] theorem stopHeartbeat_attemptFromTimer (s : WSState) :
    (stopHeartbeat s).attemptFromTimer = s.attemptFromTimer := by
  rfl

@[simp] theorem stopHeartbeat_attemptSettled (s : WSState) :
    (stopHeartbeat s).attemptSettled = s.attemptSettled := by
  rfl

@[simp] theorem stopHeartbeat_pendingTimer (s : WSState) :
    (stopHeartbeat s).pendingTimer = s.pendingTimer := by
  rfl

@[simp] theorem stopHeartbeat_closedByClient (s : WSState) :
    (stopHeartbeat s).closedByClient = s.closedByClient := by
  rfl

@[simp] theorem stopHeartbeat_pingsSent (s : WSState) :
    (stopHeartbeat s).pingsSent = s.pingsSent := by
  rfl

@[simp] theorem stopHeartbeat_invokeLog (s : WSState) :
    (stopHeartbeat s).invokeLog = s.invokeLog := by
  rfl

@[simp] theorem stopHeartbeat_nextSid (s : WSState) :
    (stopHeartbeat s).nextSid = s.nextSid := by
  rfl

@[simp] theorem stopHeartbeat_statusLog (s : WSState) :
    (stopHeartbeat s).statusLog = s.statusLog := by
  rfl

@[simp] theorem stopHeartbeat_notifyLog (s : WSState) :
    (stopHeartbeat s).notifyLog = s.notifyLog := by
  rfl

@[simp] theorem stopHeartbeat_errorLog (s : WSState) :
    (stopHeartbeat s).errorLog = s.errorLog := by
  rfl

@[simp] theorem stopHeartbeat_maxMissedHeartbeats (s : WSState) :
    (stopHeartbeat s).maxMissedHeartbeats = s.maxMissedHeartbeats := by
  rfl

@[simp] theorem startHeartbeat_listeners (s : WSState) :
    (startHeartbeat s).listeners = s.listeners := by
  rfl

@[simp] theorem startHeartbeat_statusListeners (s : WSState) :
    (startHeartbeat s).statusListeners = s.statusListeners := by
  rfl

@[simp] theorem startHeartbeat_ws (s : WSState) :
    (startHeartbeat s).ws = s.ws := by
  rfl

@[simp] theorem startHeartbeat_isManuallyDisconnected (s : WSState) :
    (startHeartbeat s).isManuallyDisconnected = s.isManuallyDisconnected := by
  rfl

@[simp] theorem startHeartbeat_attemptsMade (s : WSState) :
    (startHeartbeat s).attemptsMade = s.attemptsMade := by
  rfl

@[simp] theorem startHeartbeat_connectionStatus (s : WSState) :
    (startHeartbeat s).connectionStatus = s.connectionStatus := by
  rfl

@[simp] theorem startHeartbeat_reconnectDelay (s : WSState) :
    (startHeartbeat s).reconnectDelay = s.reconnectDelay := by
  rfl

@[simp] theorem startHeartbeat_reconnectAttempts (s : WSState) :
    (startHeartbeat s).reconnectAttempts = s.reconnectAttempts := by
  rfl

@[simp] theorem startHeartbeat_pendingTimer (s : WSState) :
    (startHeartbeat s).pendingTimer = s.pendingTimer := by
  rfl

@[simp] theorem startHeartbeat_closedByClient (s : WSState) :
    (startHeartbeat s).closedByClient = s.closedByClient := by
  rfl

@[simp] theorem onOpen_listeners (env : Env) (s : WSState) :
    (onOpen env s).listeners = s.listeners := by
  unfold onOpen startHeartbeat stopHeartbeat; simp

@[simp] theorem onOpen_statusListeners (env : Env) (s : WSState) :
    (onOpen env s).statusListeners = s.statusListeners := by
  unfold onOpen startHeartbeat stopHeartbeat; simp

@[simp] theorem onOpen_isManuallyDisconnected (env : Env) (s : WSState) :
    (onOpen env s).isManuallyDisconnected = s.isManuallyDisconnected := by
  unfold onOpen startHeartbeat stopHeartbeat; simp

@[simp] theorem onOpen_attemptsMade (env : Env) (s : WSState) :
    (onOpen env s).attemptsMade = s.attemptsMade := by
  unfold onOpen startHeartbeat stopHeartbeat; simp

@[simp] theorem onOpen_closedByClient (env : Env) (s : WSState) :
    (onOpen env s).closedByClient = s.closedByClient := by
  unfold onOpen startHeartbeat stopHeartbeat; simp

@[simp] theorem onOpen_pingsSent (env : Env) (s : WSState) :
    (onOpen env s).pingsSent = s.pingsSent := by
  unfold onOpen startHeartbeat stopHeartbeat; simp

@[simp] theorem onOpen_invokeLog (env : Env) (s : WSState) :
    (onOpen env s).invokeLog = s.invokeLog := by
  unfold onOpen startHeartbeat stopHeartbeat; simp

@[simp] theorem onOpen_pendingTimer (env : Env) (s : WSState) :
    (onOpen env s).pendingTimer = s.pendingTimer := by
  unfold onOpen startHeartbeat stopHeartbeat; simp

@[simp] theorem onOpen_maxReconnectAttempts (env : Env) (s : WSState) :
    (onOpen env s).maxReconnectAttempts = s.maxReconnectAttempts := by
  unfold onOpen startHeartbeat stopHeartbeat; simp

@[simp] theorem onOpen_maxReconnectDelay (env : Env) (s : WSState) :
    (onOpen env s).maxReconnectDelay = s.maxReconnectDelay := by
  unfold onOpen startHeartbeat stopHeartbeat; simp

@[simp] theorem onErrorHandler_listeners (env : Env) (s : WSState) :
    (onErrorHandler env s).listeners = s.listeners := by
  unfold onErrorHandler; simp

@[simp] theorem onErrorHandler_statusListeners (env : Env) (s : WSState) :
    (onErrorHandler env s).statusListeners = s.statusListeners := by
  unfold onErrorHandler; simp

@[simp] theorem onErrorHandler_ws (env : Env) (s : WSState) :
    (onErrorHandler env s).ws = s.ws := by
  unfold onErrorHandler; simp

@[simp] theorem onErrorHandler_isManuallyDisconnected (env : Env) (s : WSState) :
    (onErrorHandler env s).isManuallyDisconnected = s.isManuallyDisconnected := by
  unfold onErrorHandler; simp

@[simp] theorem onErrorHandler_attemptsMade (env : Env) (s : WSState) :
    (onErrorHandler env s).attemptsMade = s.attemptsMade := by
  unfold onErrorHandler; simp

@[simp] theorem onErrorHandler_reconnectDelay (env : Env) (s : WSState) :
    (onErrorHandler env s).reconnectDelay = s.reconnectDelay := by
  unfold onErrorHandler; simp

@[simp] theorem onErrorHandler_maxReconnectDelay (env : Env) (s : WSState) :
    (onErrorHandler env s).maxReconnectDelay = s.maxReconnectDelay := by
  unfold onErrorHandler; simp

@[simp] theorem onErrorHandler_reconnectAttempts (env : Env) (s : WSState) :
    (onErrorHandler env s).reconnectAttempts = s.reconnectAttempts := by
  unfold onErrorHandler; simp

@[simp] theorem onErrorHandler_maxReconnectAttempts (env : Env) (s : WSState) :
    (onErrorHandler env s).maxReconnectAttempts = s.maxReconnectAttempts := by
  unfold onErrorHandler; simp

@[simp] theorem onErrorHandler_attemptFromTimer (env : Env) (s : WSState) :
    (onErrorHandler env s).attemptFromTimer = s.attemptFromTimer := by
  unfold onErrorHandler; simp

@[simp] theorem onErrorHandler_attemptSettled (env : Env) (s : WSState) :
    (onErrorHandler env s).attemptSettled = s.attemptSettled := by
  unfold onErrorHandler; simp

@[simp] theorem onErrorHandler_pendingTimer (env : Env) (s : WSState) :
    (onErrorHandler env s).pendingTimer = s.pendingTimer := by
  unfold onErrorHandler; simp

@[simp] theorem onErrorHandler_closedByClient (env : Env) (s : WSState) :
    (onErrorHandler env s).closedByClient = s.closedByClient := by
  unfold onErrorHandler; simp

@[simp] theorem onErrorHandler_pingsSent (env : Env) (s : WSState) :
    (onErrorHandler env s).pingsSent = s.pingsSent := by
  unfold onErrorHandler; simp

@[simp] theorem onErrorHandler_invokeLog (env : Env) (s : WSState) :
    (onErrorHandler env s).invokeLog = s.invokeLog := by
  unfold onErrorHandler; simp

@[simp] theorem onErrorHandler_nextSid (env : Env) (s : WSState) :
    (onErrorHandler env s).nextSid = s.nextSid := by
  unfold onErrorHandler; simp

@[simp] theorem onErrorEvt_listeners (env : Env) (j : Nat) (s : WSState) :
    (onErrorEvt env j s).listeners = s.listeners := by
  unfold onErrorEvt; simp

@[simp] theorem onErrorEvt_statusListeners (env : Env) (j : Nat) (s : WSState) :
    (onErrorEvt env j s).statusListeners = s.statusListeners := by
  unfold onErrorEvt; simp

@[simp] theorem onErrorEvt_ws (env : Env) (j : Nat) (s : WSState) :
    (onErrorEvt env j s).ws = s.ws := by
  unfold onErrorEvt; simp

@[simp] theorem onErrorEvt_isManuallyDisconnected (env : Env) (j : Nat) (s : WSState) :
    (onErrorEvt env j s).isManuallyDisconnected = s.isManuallyDisconnected := by
  unfold onErrorEvt; simp

@[simp] theorem onErrorEvt_attemptsMade (env : Env) (j : Nat) (s : WSState) :
    (onErrorEvt env j s).attemptsMade = s.attemptsMade := by
  unfold onErrorEvt; simp

@[simp] theorem onErrorEvt_pendingTimer (env : Env) (j : Nat) (s : WSState) :
    (onErrorEvt env j s).pendingTimer = s.pendingTimer := by
  unfold onErrorEvt; simp

@[simp] theorem onErrorEvt_closedByClient (env : Env) (j : Nat) (s : WSState) :
    (onErrorEvt env j s).closedByClient = s.closedByClient := by
  unfold onErrorEvt; simp

@[simp] theorem onErrorEvt_pingsSent (env : Env) (j : Nat) (s : WSState) :
    (onErrorEvt env j s).pingsSent = s.pingsSent := by
  unfold onErrorEvt; simp

@[simp] theorem onErrorEvt_invokeLog (env : Env) (j : Nat) (s : WSState) :
    (onErrorEvt env j s).invokeLog = s.invokeLog := by
  unfold onErrorEvt; simp

@[simp] theorem onCloseHandler_listeners (env : Env) (wc : Bool) (s : WSState) :
    (onCloseHandler env wc s).listeners = s.listeners := by
  unfold onCloseHandler; dsimp only; split <;> simp

@[simp] theorem onCloseHandler_statusListeners (env : Env) (wc : Bool) (s : WSState) :
    (onCloseHandler env wc s).statusListeners = s.statusListeners := by
  unfold onCloseHandler; dsimp only; split <;> simp

@[simp] theorem onCloseHandler_ws (env : Env) (wc : Bool) (s : WSState) :
    (onCloseHandler env wc s).ws = s.ws := by
  unfold onCloseHandler; dsimp only; split <;> simp

@[simp] theorem onCloseHandler_isManuallyDisconnected (env : Env) (wc : Bool) (s : WSState) :
    (onCloseHandler env wc s).isManuallyDisconnected = s.isManuallyDisconnected := by
  unfold onCloseHandler; dsimp only; split <;> simp

@[simp] theorem onCloseHandler_attemptsMade (env : Env) (wc : Bool) (s : WSState) :
    (onCloseHandler env wc s).attemptsMade = s.attemptsMade := by
  unfold onCloseHandler; dsimp only; split <;> simp

@[simp] theorem onCloseHandler_reconnectDelay (env : Env) (wc : Bool) (s : WSState) :
    (onCloseHandler env wc s).reconnectDelay = s.reconnectDelay := by
  unfold onCloseHandler; dsimp only; split <;> simp

@[simp] theorem onCloseHandler_maxReconnectDelay (env : Env) (wc : Bool) (s : WSState) :
    (onCloseHandler env wc s).maxReconnectDelay = s.maxReconnectDelay := by
  unfold onCloseHandler; dsimp only; split <;> simp

@[simp] theorem onCloseHandler_closedByClient (env : Env) (wc : Bool) (s : WSState) :
    (onCloseHandler env wc s).closedByClient = s.closedByClient := by
  unfold onCloseHandler; dsimp only; split <;> simp

@[simp] theorem onCloseHandler_pingsSent (env : Env) (wc : Bool) (s : WSState) :
    (onCloseHandler env wc s).pingsSent = s.pingsSent := by
  unfold onCloseHandler; dsimp only; split <;> simp

@[simp] theorem onCloseHandler_invokeLog (env : Env) (wc : Bool) (s : WSState) :
    (onCloseHandler env wc s).invokeLog = s.invokeLog := by
  unfold onCloseHandler; dsimp only; split <;> simp

@[simp] theorem handshakeFail_listeners (env : Env) (j : Nat) (s : WSState) :
    (handshakeFail env j s).listeners = s.listeners := by
  unfold handshakeFail; simp

@[simp] theorem handshakeFail_statusListeners (env : Env) (j : Nat) (s : WSState) :
    (handshakeFail env j s).statusListeners = s.statusListeners := by
  unfold handshakeFail; simp

@[simp] theorem handshakeFail_isManuallyDisconnected (env : Env) (j : Nat) (s : WSState) :
    (handshakeFail env j s).isManuallyDisconnected = s.isManuallyDisconnected := by
  unfold handshakeFail; simp

@[simp] theorem handshakeFail_attemptsMade (env : Env) (j : Nat) (s : WSState) :
    (handshakeFail env j s).attemptsMade = s.attemptsMade := by
  unfold handshakeFail; simp

@[simp] theorem handshakeFail_closedByClient (env : Env) (j : Nat) (s : WSState) :
    (handshakeFail env j s).closedByClient = s.closedByClient := by
  unfold handshakeFail; simp

@[simp] theorem handshakeFail_pingsSent (env : Env) (j : Nat) (s : WSState) :
    (handshakeFail env j s).pingsSent = s.pingsSent := by
  unfold handshakeFail; simp

@[simp] theorem handshakeFail_invokeLog (env : Env) (j : Nat) (s : WSState) :
    (handshakeFail env j s).invokeLog = s.invokeLog := by
  unfold handshakeFail; simp

@[simp] theorem timerFire_listeners (env : Env) (j : Nat) (s : WSState) :
    (timerFire env j s).listeners = s.listeners := by
  unfold timerFire; dsimp only; repeat' split
  all_goals simp

@[simp] theorem timerFire_statusListeners (env : Env) (j : Nat) (s : WSState) :
    (timerFire env j s).statusListeners = s.statusListeners := by
  unfold timerFire; dsimp only; repeat' split
  all_goals simp

@[simp] theorem heartbeatTick_listeners (env : Env) (s : WSState) :
    (heartbeatTick env s).listeners = s.listeners := by
  unfold heartbeatTick; dsimp only; repeat' split
  all_goals simp

@[simp] theorem heartbeatTick_statusListeners (env : Env) (s : WSState) :
    (heartbeatTick env s).statusListeners = s.statusListeners := by
  unfold heartbeatTick; dsimp only; repeat' split
  all_goals simp

@[simp] theorem heartbeatTick_isManuallyDisconnected (env : Env) (s : WSState) :
    (heartbeatTick env s).isManuallyDisconnected = s.isManuallyDisconnected := by
  unfold heartbeatTick; dsimp only; repeat' split
  all_goals simp

@[simp] theorem heartbeatTick_attemptsMade (env : Env) (s : WSState) :
    (heartbeatTick env s).attemptsMade = s.attemptsMade := by
  unfold heartbeatTick; dsimp only; repeat' split
  all_goals simp

@[simp] theorem heartbeatTick_reconnectDelay (env : Env) (s : WSState) :
    (heartbeatTick env s).reconnectDelay = s.reconnectDelay := by
  unfold heartbeatTick; dsimp only; repeat' split
  all_goals simp

@[simp] theorem heartbeatTick_maxReconnectDelay (env : Env) (s : WSState) :
    (heartbeatTick env s).maxReconnectDelay = s.maxReconnectDelay := by
  unfold heartbeatTick; dsimp only; repeat' split
  all_goals simp

@[simp] theorem heartbeatTick_closedByClient (env : Env) (s : WSState) :
    (heartbeatTick env s).closedByClient = s.closedByClient := by
  unfold heartbeatTick; dsimp only; repeat' split
  all_goals simp

@[simp] theorem heartbeatTick_invokeLog (env : Env) (s : WSState) :
    (heartbeatTick env s).invokeLog = s.invokeLog := by
  unfold heartbeatTick; dsimp only; repeat' split
  all_goals simp

@[simp] theorem handleMessage_listeners (throws : Nat → Bool) (s : WSState) (m : Msg) :
    (handleMessage throws s m).listeners = s.listeners := by
  unfold handleMessage; split <;> simp

@[simp] theorem handleMessage_statusListeners (throws : Nat → Bool) (s : WSState) (m : Msg) :
    (handleMessage throws s m).statusListeners = s.statusListeners := by
  unfold handleMessage; split <;> simp

@[simp] theorem handleMessage_ws (throws : Nat → Bool) (s : WSState) (m : Msg) :
    (handleMessage throws s m).ws = s.ws := by
  unfold handleMessage; split <;> simp

@[simp] theorem handleMessage_isManuallyDisconnected (throws : Nat → Bool) (s : WSState) (m : Msg) :
    (handleMessage throws s m).isManuallyDisconnected = s.isManuallyDisconnected := by
  unfold handleMessage; split <;> simp

@[simp] theorem handleMessage_attemptsMade (throws : Nat → Bool) (s : WSState) (m : Msg) :
    (handleMessage throws s m).attemptsMade = s.attemptsMade := by
  unfold handleMessage; split <;> simp

@[simp] theorem handleMessage_connectionStatus (throws : Nat → Bool) (s : WSState) (m : Msg) :
    (handleMessage throws s m).connectionStatus = s.connectionStatus := by
  unfold handleMessage; split <;> simp

@[simp] theorem handleMessage_reconnectDelay (throws : Nat → Bool) (s : WSState) (m : Msg) :
    (handleMessage throws s m).reconnectDelay = s.reconnectDelay := by
  unfold handleMessage; split <;> simp

@[simp] theorem handleMessage_maxReconnectDelay (throws : Nat → Bool) (s : WSState) (m : Msg) :
    (handleMessage throws s m).maxReconnectDelay = s.maxReconnectDelay := by
  unfold handleMessage; split <;> simp

@[simp] theorem handleMessage_reconnectAttempts (throws : Nat → Bool) (s : WSState) (m : Msg) :
    (handleMessage throws s m).reconnectAttempts = s.reconnectAttempts := by
  unfold handleMessage; split <;> simp

@[simp] theorem handleMessage_maxReconnectAttempts (throws : Nat → Bool) (s : WSState) (m : Msg) :
    (handleMessage throws s m).maxReconnectAttempts = s.maxReconnectAttempts := by
  unfold handleMessage; split <;> simp

@[simp] theorem handleMessage_attemptFromTimer (throws : Nat → Bool) (s : WSState) (m : Msg) :
    (handleMessage throws s m).attemptFromTimer = s.attemptFromTimer := by
  unfold handleMessage; split <;> simp

@[simp] theorem handleMessage_attemptSettled (throws : Nat → Bool) (s : WSState) (m : Msg) :
    (handleMessage throws s m).attemptSettled = s.attemptSettled := by
  unfold handleMessage; split <;> simp

@[simp] theorem handleMessage_pendingTimer (throws : Nat → Bool) (s : WSState) (m : Msg) :
    (handleMessage throws s m).pendingTimer = s.pendingTimer := by
  unfold handleMessage; split <;> simp

@[simp] theorem handleMessage_closedByClient (throws : Nat → Bool) (s : WSState) (m : Msg) :
    (handleMessage throws s m).closedByClient = s.closedByClient := by
  unfold handleMessage; split <;> simp

@[simp] theorem handleMessage_pingsSent (throws : Nat → Bool) (s : WSState) (m : Msg) :
    (handleMessage throws s m).pingsSent = s.pingsSent := by
  unfold handleMessage; split <;> simp

@[simp] theorem handleMessage_nextSid (throws : Nat → Bool) (s : WSState) (m : Msg) :
    (handleMessage throws s m).nextSid = s.nextSid := by
  unfold handleMessage; split <;> simp

@[simp] theorem handleMessage_heartbeatOn (throws : Nat → Bool) (s : WSState) (m : Msg) :
    (handleMessage throws s m).heartbeatOn = s.heartbeatOn := by
  unfold handleMessage; split <;> simp

@[simp] theorem handleMessage_statusLog (throws : Nat → Bool) (s : WSState) (m : Msg) :
    (handleMessage throws s m).statusLog = s.statusLog := by
  unfold handleMessage; split <;> simp

@[simp] theorem handleMessage_notifyLog (throws : Nat → Bool) (s : WSState) (m : Msg) :
    (handleMessage throws s m).notifyLog = s.notifyLog := by
  unfold handleMessage; split <;> simp

@[simp] theorem handleMessage_maxMissedHeartbeats (throws : Nat → Bool) (s : WSState) (m : Msg) :
    (handleMessage throws s m).maxMissedHeartbeats = s.maxMissedHeartbeats := by
  unfold handleMessage; split <;> simp

@[simp] theorem disconnect_listeners (env : Env) (s : WSState) :
    (disconnect env s).listeners = s.listeners := by
  unfold disconnect stopHeartbeat; cases hws : s.ws <;> simp [hws]

@[simp] theorem disconnect_statusListeners (env : Env) (s : WSState) :
    (disconnect env s).statusListeners = s.statusListeners := by
  unfold disconnect stopHeartbeat; cases hws : s.ws <;> simp [hws]

@[simp] theorem disconnect_attemptsMade (env : Env) (s : WSState) :
    (disconnect env s).attemptsMade = s.attemptsMade := by
  unfold disconnect stopHeartbeat; cases hws : s.ws <;> simp [hws]

@[simp] theorem disconnect_invokeLog (env : Env) (s : WSState) :
    (disconnect env s).invokeLog = s.invokeLog := by
  unfold disconnect stopHeartbeat; cases hws : s.ws <;> simp [hws]

@[simp] theorem disconnect_pingsSent (env : Env) (s : WSState) :
    (disconnect env s).pingsSent = s.pingsSent := by
  unfold disconnect stopHeartbeat; cases hws : s.ws <;> simp [hws]

@[simp] theorem disconnect_reconnectDelay (env : Env) (s : WSState) :
    (disconnect env s).reconnectDelay = s.reconnectDelay := by
  unfold disconnect stopHeartbeat; cases hws : s.ws <;> simp [hws]

@[simp] theorem disconnect_reconnectAttempts (env : Env) (s : WSState) :
    (disconnect env s).reconnectAttempts = s.reconnectAttempts := by
  unfold disconnect stopHeartbeat; cases hws : s.ws <;> simp [hws]

@[simp] theorem disconnect_pendingTimer (env : Env) (s : WSState) :
    (disconnect env s).pendingTimer = s.pendingTimer := by
  unfold disconnect stopHeartbeat; cases hws : s.ws <;> simp [hws]

/-! ## Helper lemmas about the listener registry -/

theorem setAdd_mem (s : List Nat) (cb : Nat) : cb ∈ setAdd s cb := by
  unfold setAdd; split
  · assumption
  · simp

theorem setAdd_of_mem {s : List Nat} {cb : Nat} (h : cb ∈ s) : setAdd s cb = s := by
  unfold setAdd; exact if_pos h

theorem setAdd_idem (s : List Nat) (cb : Nat) : setAdd (setAdd s cb) cb = setAdd s cb :=
  setAdd_of_mem (setAdd_mem s cb)

theorem setDelete_not_mem (s : List Nat) (cb : Nat) : cb ∉ setDelete s cb := by
  simp [setDelete]

theorem setDelete_mem_of_ne {s : List Nat} {a b : Nat} (h : b ≠ a) (hb : b ∈ s) :
    b ∈ setDelete s a := by
  simp [setDelete, hb, h]

theorem hasType_cons (p : String × List Nat) (rest : List (String × List Nat)) (ty : String) :
    hasType (p :: rest) ty = ((p.1 == ty) || hasType rest ty) := by
  unfold hasType
  cases hp : (p.1 == ty) <;>
    simp [List.find?_cons_of_pos, List.find?_cons_of_neg, hp]

theorem getListeners_cons (p : String × List Nat) (rest : List (String × List Nat)) (ty : String) :
    getListeners (p :: rest) ty = if (p.1 == ty) then p.2 else getListeners rest ty := by
  unfold getListeners
  cases hp : (p.1 == ty) <;>
    simp [List.find?_cons_of_pos, List.find?_cons_of_neg, hp]

theorem getListeners_eq_nil_of_not_hasType {l : List (String × List Nat)} {ty : String}
    (h : hasType l ty = false) : getListeners l ty = [] := by
  unfold hasType at h
  unfold getListeners
  cases hf : l.find? (fun p => p.1 == ty) with
  | none => rfl
  | some p => rw [hf] at h; simp at h

theorem updateAt_cons (p : String × List Nat) (rest : List (String × List Nat))
    (ty : String) (g : List Nat → List Nat) :
    updateAt (p :: rest) ty g
      = (if p.1 == ty then (p.1, g p.2) else p) :: updateAt rest ty g := rfl

theorem getListeners_updateAt (l : List (String × List Nat)) (ty : String)
    (g : List Nat → List Nat) :
    getListeners (updateAt l ty g) ty
      = if hasType l ty then g (getListeners l ty) else [] := by
  induction l with
  | nil => simp [updateAt, getListeners, hasType]
  | cons p rest ih =>
    by_cases hp : p.1 = ty <;>
      simp [updateAt_cons, getListeners_cons, hasType_cons, hp, ih]

theorem hasType_updateAt (l : List (String × List Nat)) (ty : String)
    (g : List Nat → List Nat) :
    hasType (updateAt l ty g) ty = hasType l ty := by
  induction l with
  | nil => simp [updateAt, hasType]
  | cons p rest ih =>
    by_cases hp : p.1 = ty <;>
      simp [updateAt_cons, hasType_cons, hp, ih]

theorem getListeners_filter_ne (l : List (String × List Nat)) (ty : String) :
    getListeners (l.filter (fun p => p.1 != ty)) ty = [] := by
  induction l with
  | nil => rfl
  | cons p rest ih =>
    by_cases hp : p.1 = ty <;>
      simp [List.filter_cons, hp, getListeners_cons, ih]

theorem hasType_nil (ty : String) : hasType [] ty = false := rfl

theorem hasType_append (l1 l2 : List (String × List Nat)) (ty : String) :
    hasType (l1 ++ l2) ty = (hasType l1 ty || hasType l2 ty) := by
  induction l1 with
  | nil => simp [hasType_nil]
  | cons p rest ih => simp [hasType_cons, ih, Bool.or_assoc]

theorem getListeners_removeListener_self (l : List (String × List Nat)) (ty : String) (a : Nat) :
    a ∉ getListeners (removeListener l ty a) ty := by
  unfold removeListener
  by_cases h : hasType l ty = true
  · rw [if_pos h]
    dsimp only
    by_cases h2 : (getListeners (updateAt l ty (fun s => setDelete s a)) ty).isEmpty = true
    · rw [if_pos h2, getListeners_filter_ne]
      simp
    · rw [if_neg h2, getListeners_updateAt, if_pos h]
      exact setDelete_not_mem _ _
  · rw [if_neg h]
    rw [getListeners_eq_nil_of_not_hasType ((Bool.not_eq_true _).mp h)]
    simp

theorem getListeners_removeListener_other (l : List (String × List Nat)) (ty : String)
    {a b : Nat} (hne : b ≠ a) (hb : b ∈ getListeners l ty) :
    b ∈ getListeners (removeListener l ty a) ty := by
  unfold removeListener
  by_cases h : hasType l ty = true
  · rw [if_pos h]
    dsimp only
    have hmem : b ∈ getListeners (updateAt l ty (fun s => setDelete s a)) ty := by
      rw [getListeners_updateAt, if_pos h]
      exact setDelete_mem_of_ne hne hb
    by_cases h2 : (getListeners (updateAt l ty (fun s => setDelete s a)) ty).isEmpty = true
    · rw [List.isEmpty_iff] at h2
      rw [h2] at hmem
      simp at hmem
    · rw [if_neg h2]
      exact hmem
  · rw [if_neg h]
    exact hb

theorem addListener_idem (l : List (String × List Nat)) (ty : String) (cb : Nat) :
    addListener (addListener l ty cb) ty cb = addListener l ty cb := by
  by_cases h : hasType l ty = true
  · unfold addListener
    rw [if_pos h]
    rw [if_pos (by rw [hasType_updateAt]; exact h)]
    unfold updateAt
    rw [List.map_map]
    apply List.map_congr_left
    intro p hp
    by_cases hk : (p.1 == ty) = true
    · simp [Function.comp, hk, setAdd_idem]
    · simp [Function.comp, hk]
  · have hfind : l.find? (fun p => p.1 == ty) = none := by
      unfold hasType at h
      cases hf : l.find? (fun p => p.1 == ty) with
      | none => rfl
      | some p => rw [hf] at h; simp at h
    have hnone : ∀ p ∈ l, ¬((p.1 == ty) = true) := by
      intro p hp
      exact List.find?_eq_none.mp hfind p hp
    unfold addListener
    rw [if_neg h]
    rw [if_pos (by simp [hasType_append, hasType_cons])]
    unfold updateAt
    rw [List.map_append]
    congr 1
    · conv_rhs => rw [← List.map_id l]
      apply List.map_congr_left
      intro p hp
      simp [hnone p hp]
    · simp [setAdd]

/-! ## Concrete fixtures used by the scenario theorems -/

/-- An environment with a valid token in which no callback throws. -/
def envA : Env := { hasToken := true, throws := fun _ => false }

/-- The service with its backoff fields set to the scenario configuration
`baseDelay = 100`, `maxDelay = 1000`, `maxAttempts = 3` (the service has no
configuration constructor; these are the fields `reconnectDelay`,
`maxReconnectDelay` and `maxReconnectAttempts`). -/
def cfgC1 : WSState :=
  { initial with reconnectDelay := 100, maxReconnectDelay := 1000, maxReconnectAttempts := 3 }

/-- A connect request followed by three handshake failures, each reconnect
timer firing before the next failure. -/
def runC1 : WSState :=
  run envA cfgC1
    [.connectReq, .failEvt 0, .timerEvt 0, .failEvt 0, .timerEvt 0, .failEvt 0]

/-- The same scenario continued until the service actually stops retrying:
the fourth (still scheduled) attempt fires and fails. -/
def runC1full : WSState :=
  run envA cfgC1
    [.connectReq, .failEvt 0, .timerEvt 0, .failEvt 0, .timerEvt 0, .failEvt 0,
     .timerEvt 0, .failEvt 0]

/-- Claim C1, counterexample: with `{baseDelay:100, maxDelay:1000,
maxAttempts:3}` and 3 consecutive handshake failures after a connect request,
the statuses delivered to status observers are NOT
`connecting, connecting, connecting, error`: every handshake failure first
surfaces an `error` status (the `ws.onerror` handler calls
`_setStatus('error')` unconditionally), after which `_attemptReconnect`
announces `connecting` again — and after the third failure a fourth attempt
is still pending rather than the machine having stopped at 3 attempts. -/
theorem threeFailures_statusLog_interleaves_error :
    runC1.statusLog
        = [.connecting, .error, .connecting, .error, .connecting, .error, .connecting] ∧
    runC1.statusLog ≠ [.connecting, .connecting, .connecting, .error] ∧
    runC1.attemptsMade = 3 ∧
    runC1.pendingTimer = true := by
  decide

/-- Claim C1, amended: with `{baseDelay:100, maxDelay:1000, maxAttempts:3}`,
each transient handshake failure is surfaced to status observers as `error`
followed by `connecting` when the retry is scheduled; after 3 failures a 4th
physical attempt is still scheduled, and only after it fails too does the
service settle in the terminal `error` status, having made
`1 + maxAttempts = 4` physical connection attempts in total. -/
theorem threeFailures_full_trace :
    runC1full.statusLog
        = [.connecting, .error, .connecting, .error, .connecting, .error,
           .connecting, .error] ∧
    runC1full.attemptsMade = 4 ∧
    runC1full.connectionStatus = .error ∧
    runC1full.pendingTimer = false := by
  decide

/-- A connect request and successful handshake followed by three heartbeat
ticks with no inbound traffic, so `missedHeartbeats` reaches
`maxMissedHeartbeats = 3` on the third probe. -/
def runC3 : WSState :=
  run envA initial [.connectReq, .openEvt, .tickEvt, .tickEvt, .tickEvt]

/-- Claim C3, counterexample: when `missedHeartbeats` reaches
`maxMissedHeartbeats`, a reconnection attempt is indeed scheduled
(`pendingTimer`), but the physical connection is NOT torn down: the service
never calls `close()` on the socket (`closedByClient = []`), the socket is
still present and open, and even the heartbeat keeps running. -/
theorem heartbeat_exhaustion_no_teardown :
    runC3.pendingTimer = true ∧
    runC3.closedByClient = [] ∧
    runC3.ws = some { sid := 0, readyState := .OPEN } ∧
    runC3.heartbeatOn = true ∧
    runC3.statusLog = [.connecting, .connected, .connecting] := by
  decide

/-- Claim C5, counterexample: registering the same callback object twice
under the same event type yields a single registration (the `Set` collapses
the duplicate), and a single unsubscribe removes the callback entirely, after
which a dispatch of its event type invokes nothing — so the two registrations
are not independent as the claim states. -/
theorem duplicate_subscribe_collapses :
    (onEvent (onEvent initial "X" 7) "X" 7).listeners = [("X", [7])] ∧
    (offEvent (onEvent (onEvent initial "X" 7) "X" 7) "X" 7).listeners = [] ∧
    (handleMessage (fun _ => false)
        (offEvent (onEvent (onEvent initial "X" 7) "X" 7) "X" 7)
        { type := "X", value := 1 }).invokeLog = [] := by
  decide

/-- Claim C9, counterexample: an inbound message of the reserved control type
`ping` IS forwarded to a callback registered under `"ping"` — only `pong` is
consumed by the heartbeat layer (`_handleMessage` checks
`data.type === 'pong'` and nothing else). -/
theorem ping_is_forwarded :
    (handleMessage (fun _ => false) (onEvent initial "ping" 7)
        { type := "ping", value := 0 }).invokeLog
      = [(7, { type := "ping", value := 0 })] := by
  decide

/-- A state in the middle of a timer-initiated, still-pending reconnection
attempt. -/
def sBackoff : WSState :=
  { initial with reconnectDelay := 200, reconnectAttempts := 1,
                 attemptFromTimer := true, attemptSettled := false,
                 ws := some { sid := 3, readyState := .CONNECTING },
                 connectionStatus := .connecting }

/-- Helper: the backoff `catch` updates the delay by the reference formula
whenever the failed attempt was timer-initiated and still pending. -/
theorem rejectCatch_reconnectDelay_of_pending (env : Env) (j : Nat) (s : WSState)
    (h1 : s.attemptFromTimer = true) (h2 : s.attemptSettled = false) :
    (rejectCatch env j s).reconnectDelay
      = min (s.reconnectDelay * 2 + j) s.maxReconnectDelay := by
  unfold rejectCatch
  rw [if_pos (by simp [h1, h2])]
  dsimp only
  split <;> simp

/-- Helper: with attempts remaining and no manual disconnect,
`_attemptReconnect` schedules the retry timer. -/
theorem attemptReconnect_pendingTimer_of_active (env : Env) (s : WSState)
    (h1 : s.isManuallyDisconnected = false)
    (h2 : s.reconnectAttempts < s.maxReconnectAttempts) :
    (attemptReconnect env s).pendingTimer = true := by
  unfold attemptReconnect
  rw [if_neg (by simp [h1, Nat.not_le.mpr h2])]

/-- The service already holding a CONNECTING socket. -/
def sInflight : WSState :=
  { initial with ws := some { sid := 0, readyState := .CONNECTING } }

/-- Claim C2 (confirmed): a `connect()` call made while the current socket is
CONNECTING or OPEN is a no-op that resolves immediately
(`Promise.resolve()`), returns the state unchanged and creates no second
WebSocket; consequently any number of repeated `connect()` calls in that
situation leaves the state — and the single in-flight socket — unchanged. -/
theorem connect_noop_when_in_flight (env : Env) (s : WSState) (k : Socket)
    (h1 : s.ws = some k)
    (h2 : k.readyState = ReadyState.CONNECTING ∨ k.readyState = ReadyState.OPEN) :
    connect env s = (s, true) ∧
    ∀ n : Nat, run env s (List.replicate n .connectReq) = s := by
  have hc : connect env s = (s, true) := by
    unfold connect
    rw [h1]
    exact if_pos h2
  refine ⟨hc, ?_⟩
  intro n
  induction n with
  | zero => rfl
  | succ n ih =>
    simp only [run, List.replicate_succ, List.foldl_cons]
    have hs : stepL env s .connectReq = s := by simp [stepL, hc]
    rw [hs]
    simpa only [run] using ih

/-- Witness for `connect_noop_when_in_flight` at a concrete in-flight state. -/
theorem connect_noop_when_in_flight_witness :
    sInflight.ws = some { sid := 0, readyState := .CONNECTING } ∧
    connect envA sInflight = (sInflight, true) :=
  ⟨rfl,
    (connect_noop_when_in_flight envA sInflight { sid := 0, readyState := .CONNECTING }
      rfl (Or.inl rfl)).1⟩

/-- Claim C4 (confirmed): a failed reconnection attempt (timer-initiated,
promise still pending) updates the delay by
`reconnectDelay = min(reconnectDelay * 2 + jitter, maxReconnectDelay)` with
the jitter supplied fresh at each failure event, so successive delays are
non-decreasing (whatever the jitter) and never exceed `maxReconnectDelay`;
and a successful handshake resets the delay to the base value `1000` and the
attempt counter to zero. -/
theorem backoff_update_and_reset (env : Env) (s : WSState) (j : Nat)
    (h1 : s.attemptFromTimer = true) (h2 : s.attemptSettled = false)
    (h3 : s.reconnectDelay ≤ s.maxReconnectDelay) :
    (handshakeFail env j s).reconnectDelay
        = min (s.reconnectDelay * 2 + j) s.maxReconnectDelay ∧
    s.reconnectDelay ≤ (handshakeFail env j s).reconnectDelay ∧
    (handshakeFail env j s).reconnectDelay ≤ s.maxReconnectDelay ∧
    (onOpen env s).reconnectDelay = 1000 ∧
    (onOpen env s).reconnectAttempts = 0 := by
  have hd : (handshakeFail env j s).reconnectDelay
      = min (s.reconnectDelay * 2 + j) s.maxReconnectDelay := by
    unfold handshakeFail onErrorEvt
    rw [onCloseHandler_reconnectDelay]
    dsimp only
    rw [rejectCatch_reconnectDelay_of_pending _ _ _ (by simp [h1]) (by simp [h2])]
    simp
  refine ⟨hd, ?_, ?_, rfl, rfl⟩
  · rw [hd]
    exact Nat.le_min.mpr ⟨by omega, h3⟩
  · rw [hd]
    exact min_le_right _ _

/-- Witness for `backoff_update_and_reset`: a pending timer-initiated attempt
with delay 200 under ceiling 30000 and jitter 137. -/
theorem backoff_update_and_reset_witness :
    (sBackoff.attemptFromTimer = true ∧ sBackoff.attemptSettled = false ∧
       sBackoff.reconnectDelay ≤ sBackoff.maxReconnectDelay) ∧
    ((handshakeFail envA 137 sBackoff).reconnectDelay
        = min (sBackoff.reconnectDelay * 2 + 137) sBackoff.maxReconnectDelay ∧
      sBackoff.reconnectDelay ≤ (handshakeFail envA 137 sBackoff).reconnectDelay ∧
      (handshakeFail envA 137 sBackoff).reconnectDelay ≤ sBackoff.maxReconnectDelay ∧
      (onOpen envA sBackoff).reconnectDelay = 1000 ∧
      (onOpen envA sBackoff).reconnectAttempts = 0) :=
  ⟨by decide, backoff_update_and_reset envA sBackoff 137 rfl rfl (by decide)⟩

/-- A connected state whose next unanswered probe reaches the missed-probe
ceiling. -/
def sHb : WSState :=
  { initial with heartbeatOn := true, ws := some { sid := 0, readyState := .OPEN },
                 missedHeartbeats := 2, connectionStatus := .connected }

/-- Claim C3, amended: while connected, each heartbeat probe increments
`missedHeartbeats` and any inbound message resets it to zero; when
`missedHeartbeats` reaches `maxMissedHeartbeats` (with attempts remaining and
no manual disconnect), a reconnection attempt is scheduled — but the physical
connection is NOT torn down: no `close()` is issued, the socket stays present
and open, and the heartbeat keeps running; the stale socket is only replaced
(unclosed) when the scheduled retry constructs a new one. -/
theorem heartbeat_exhaustion_schedules_reconnect (env : Env) (s : WSState) (k : Socket)
    (h1 : s.heartbeatOn = true) (h2 : s.ws = some k) (h3 : k.readyState = .OPEN)
    (h4 : s.isManuallyDisconnected = false)
    (h5 : s.reconnectAttempts < s.maxReconnectAttempts)
    (h6 : s.maxMissedHeartbeats ≤ s.missedHeartbeats + 1) :
    (heartbeatTick env s).missedHeartbeats = s.missedHeartbeats + 1 ∧
    (heartbeatTick env s).pingsSent = s.pingsSent + 1 ∧
    (heartbeatTick env s).pendingTimer = true ∧
    (heartbeatTick env s).closedByClient = s.closedByClient ∧
    (heartbeatTick env s).ws = some k ∧
    (heartbeatTick env s).heartbeatOn = true ∧
    ∀ (throws : Nat → Bool) (m : Msg), (handleMessage throws s m).missedHeartbeats = 0 := by
  have ht : heartbeatTick env s
      = attemptReconnect env
          { s with pingsSent := s.pingsSent + 1,
                   missedHeartbeats := s.missedHeartbeats + 1 } := by
    unfold heartbeatTick
    rw [h2]
    simp [h1, h3, h6]
  rw [ht]
  refine ⟨by simp, by simp, ?_, by simp, by simp [h2], by simp [h1], ?_⟩
  · exact attemptReconnect_pendingTimer_of_active env _ (by simp [h4]) (by simp [h5])
  · intro throws m
    unfold handleMessage
    dsimp only
    split <;> rfl

/-- Witness for `heartbeat_exhaustion_schedules_reconnect`: the third
consecutive unanswered probe with `maxMissedHeartbeats = 3`. -/
theorem heartbeat_exhaustion_schedules_reconnect_witness :
    (sHb.heartbeatOn = true ∧ sHb.missedHeartbeats = 2 ∧ sHb.maxMissedHeartbeats = 3) ∧
    ((heartbeatTick envA sHb).missedHeartbeats = sHb.missedHeartbeats + 1 ∧
      (heartbeatTick envA sHb).pingsSent = sHb.pingsSent + 1 ∧
      (heartbeatTick envA sHb).pendingTimer = true ∧
      (heartbeatTick envA sHb).closedByClient = sHb.closedByClient ∧
      (heartbeatTick envA sHb).ws = some { sid := 0, readyState := .OPEN } ∧
      (heartbeatTick envA sHb).heartbeatOn = true ∧
      ∀ (throws : Nat → Bool) (m : Msg),
        (handleMessage throws sHb m).missedHeartbeats = 0) :=
  ⟨by decide,
    heartbeat_exhaustion_schedules_reconnect envA sHb { sid := 0, readyState := .OPEN }
      rfl rfl rfl rfl (by decide) (by decide)⟩

/-- Claim C9, amended: only the reserved control type `pong` is consumed by
the heartbeat layer (every inbound message, `pong` included, resets
`missedHeartbeats`); every message of any other type — `ping` included — is
forwarded verbatim, with eventType the value of its `type` field and payload
the whole parsed object: the dispatch appends exactly `(cb, whole message)`
for each registered target, the type's own subscribers first and the
`"message"`-sentinel subscribers after them. -/
theorem routing_consumes_only_pong (throws : Nat → Bool) (s : WSState) (m : Msg) :
    (m.type = "pong" →
      (handleMessage throws s m).invokeLog = s.invokeLog ∧
      (handleMessage throws s m).missedHeartbeats = 0) ∧
    (m.type ≠ "pong" →
      (handleMessage throws s m).invokeLog
          = s.invokeLog ++ (dispatchTargets s.listeners m).map (fun cb => (cb, m)) ∧
      (handleMessage throws s m).missedHeartbeats = 0) := by
  constructor
  · intro h
    unfold handleMessage
    dsimp only
    rw [if_pos h]
    exact ⟨rfl, rfl⟩
  · intro h
    unfold handleMessage
    dsimp only
    rw [if_neg h]
    exact ⟨by simp [forEachGuarded_fst], rfl⟩

/-- Witness for `routing_consumes_only_pong`: a subscriber to `"X"` receiving
the raw message with type `"X"` and value 42, with the whole object as
payload. -/
theorem routing_consumes_only_pong_witness :
    (Msg.mk "X" 42).type ≠ "pong" ∧
    ((handleMessage (fun _ => false) (onEvent initial "X" 7) (Msg.mk "X" 42)).invokeLog
        = (onEvent initial "X" 7).invokeLog
            ++ (dispatchTargets (onEvent initial "X" 7).listeners (Msg.mk "X" 42)).map
                (fun cb => (cb, Msg.mk "X" 42)) ∧
      (handleMessage (fun _ => false) (onEvent initial "X" 7) (Msg.mk "X" 42)).missedHeartbeats
        = 0) :=
  ⟨by decide, (routing_consumes_only_pong (fun _ => false) (onEvent initial "X" 7)
      (Msg.mk "X" 42)).2 (by decide)⟩

/-- A registry with two callbacks on event type `"X"`. -/
def sTwo : WSState := { initial with listeners := [("X", [0, 1])] }

/-- A callback-fault environment: callback 0 throws, all others return. -/
def throws0 : Nat → Bool := fun n => n == 0

/-- Claim C6 (confirmed): for every dispatched inbound (non-`pong`) message,
every currently-registered callback for its event type is invoked, in
registration order, each inside its own failure boundary: the invocation
list grows by the full target list regardless of which callbacks throw, the
caught exceptions are exactly the throwing targets (merely counted/logged),
and the exception-monad form of the dispatch loop returns `Except.ok` — no
exception propagates out of the dispatch to its caller. -/
theorem dispatch_isolates_callback_faults (throws : Nat → Bool) (s : WSState) (m : Msg)
    (h : m.type ≠ "pong") :
    (handleMessage throws s m).invokeLog
        = s.invokeLog ++ (dispatchTargets s.listeners m).map (fun cb => (cb, m)) ∧
    (handleMessage throws s m).errorLog
        = s.errorLog + ((dispatchTargets s.listeners m).filter throws).length ∧
    forEachGuardedE throws m (dispatchTargets s.listeners m)
        = Except.ok (forEachGuarded throws m (dispatchTargets s.listeners m)) := by
  refine ⟨?_, ?_, forEachGuardedE_eq _ _ _⟩ <;>
    (unfold handleMessage; dsimp only; rw [if_neg h];
      simp [forEachGuarded_fst, forEachGuarded_snd])

/-- Witness for `dispatch_isolates_callback_faults`: callback 0 throws, yet
callback 1 is still invoked in the same dispatch and the loop stays in
`Except.ok`. -/
theorem dispatch_isolates_callback_faults_witness :
    (Msg.mk "X" 5).type ≠ "pong" ∧
    ((handleMessage throws0 sTwo (Msg.mk "X" 5)).invokeLog
        = sTwo.invokeLog ++ (dispatchTargets sTwo.listeners (Msg.mk "X" 5)).map
            (fun cb => (cb, Msg.mk "X" 5)) ∧
      (handleMessage throws0 sTwo (Msg.mk "X" 5)).errorLog
        = sTwo.errorLog
            + ((dispatchTargets sTwo.listeners (Msg.mk "X" 5)).filter throws0).length ∧
      forEachGuardedE throws0 (Msg.mk "X" 5) (dispatchTargets sTwo.listeners (Msg.mk "X" 5))
        = Except.ok (forEachGuarded throws0 (Msg.mk "X" 5)
            (dispatchTargets sTwo.listeners (Msg.mk "X" 5)))) :=
  ⟨by decide, dispatch_isolates_callback_faults throws0 sTwo (Msg.mk "X" 5) (by decide)⟩

/-- A service with two status listeners. -/
def sStatus2 : WSState := { initial with statusListeners := [0, 1] }

/-- The environment in which status listener 0 throws. -/
def envB : Env := { hasToken := true, throws := throws0 }

/-- Claim C10 (confirmed): on every status transition notification
(`_setStatus` with an actually-changed status), every registered status
listener is notified with the new status, in registration order, even when
some listeners throw: each notification runs in its own failure boundary,
caught exceptions are merely counted (logged), and the exception-monad form
of the notification loop returns `Except.ok` — a throwing status callback
neither prevents the remaining listeners from being notified of the same
transition nor propagates to the code performing the transition. -/
theorem status_notification_isolates_faults (env : Env) (s : WSState) (st : Status)
    (h : s.connectionStatus ≠ st) :
    (setStatus env s st).notifyLog
        = s.notifyLog ++ s.statusListeners.map (fun cb => (cb, st)) ∧
    (setStatus env s st).errorLog
        = s.errorLog + (s.statusListeners.filter env.throws).length ∧
    forEachGuardedE env.throws st s.statusListeners
        = Except.ok (forEachGuarded env.throws st s.statusListeners) := by
  refine ⟨?_, ?_, forEachGuardedE_eq _ _ _⟩ <;>
    (unfold setStatus; rw [if_neg h]; simp [forEachGuarded_fst, forEachGuarded_snd])

/-- Witness for `status_notification_isolates_faults`: status listener 0
throws, yet listener 1 is still notified of the same transition. -/
theorem status_notification_isolates_faults_witness :
    sStatus2.connectionStatus ≠ Status.connected ∧
    ((setStatus envB sStatus2 .connected).notifyLog
        = sStatus2.notifyLog
            ++ sStatus2.statusListeners.map (fun cb => (cb, Status.connected)) ∧
      (setStatus envB sStatus2 .connected).errorLog
        = sStatus2.errorLog + (sStatus2.statusListeners.filter envB.throws).length ∧
      forEachGuardedE envB.throws Status.connected sStatus2.statusListeners
        = Except.ok (forEachGuarded envB.throws Status.connected sStatus2.statusListeners)) :=
  ⟨by decide, status_notification_isolates_faults envB sStatus2 .connected (by decide)⟩

/-- Claim C5, amended: the registry keeps, per event type, an
insertion-ordered *set* of callbacks: registering the same callback object a
second time under the same event type is a no-op (the registration is shared,
so one unsubscribe removes it entirely), while for distinct callbacks an
unsubscribe removes exactly that callback's registration — other callbacks
registered for the same event type are unaffected — and a dispatch over that
event type's registrations after the unsubscribe never invokes the removed
callback. -/
theorem registry_set_semantics (l : List (String × List Nat)) (ty : String) (a b : Nat) :
    addListener (addListener l ty a) ty a = addListener l ty a ∧
    a ∉ getListeners (removeListener l ty a) ty ∧
    (a ≠ b → b ∈ getListeners l ty → b ∈ getListeners (removeListener l ty a) ty) ∧
    (∀ (throws : Nat → Bool) (m : Msg),
      (a, m) ∉ (forEachGuarded throws m (getListeners (removeListener l ty a) ty)).1) := by
  refine ⟨addListener_idem l ty a, getListeners_removeListener_self l ty a, ?_, ?_⟩
  · intro hne hb
    exact getListeners_removeListener_other l ty (Ne.symm hne) hb
  · intro throws m
    rw [forEachGuarded_fst]
    intro hmem
    rcases List.mem_map.mp hmem with ⟨cb, hcb, heq⟩
    have hcba : cb = a := congrArg Prod.fst heq
    exact getListeners_removeListener_self l ty a (hcba ▸ hcb)

/-- Witness for `registry_set_semantics`: with callbacks 5 and 7 registered
under `"X"`, unsubscribing 5 leaves 7 registered. -/
theorem registry_set_semantics_witness :
    ((5 : Nat) ≠ 7 ∧ (7 : Nat) ∈ getListeners [("X", [5, 7])] "X") ∧
    (7 : Nat) ∈ getListeners (removeListener [("X", [5, 7])] "X" 5) "X" :=
  ⟨⟨by decide, by decide⟩,
    (registry_set_semantics [("X", [5, 7])] "X" 5 7).2.2.1 (by decide) (by decide)⟩

/-- Helper: one lifecycle step never touches the event-listener registry. -/
theorem stepL_listeners (env : Env) (s : WSState) (e : LEvent) :
    (stepL env s e).listeners = s.listeners := by
  cases e <;> simp [stepL]

/-- Helper: one lifecycle step never touches the status-listener set. -/
theorem stepL_statusListeners (env : Env) (s : WSState) (e : LEvent) :
    (stepL env s e).statusListeners = s.statusListeners := by
  cases e <;> simp [stepL]

/-- Claim C7 (confirmed): the subscription registry is untouched by every
sequence of connection-lifecycle events — connect and disconnect requests,
handshake successes and failures, closes, errors, reconnect timers,
heartbeat ticks and inbound-message dispatches neither add nor remove
registrations (and likewise for status listeners) — so a subscription made
while disconnected is still registered, unchanged, whenever a later
connection delivers events. -/
theorem lifecycle_preserves_registry (env : Env) (s : WSState) (es : List LEvent) :
    (run env s es).listeners = s.listeners ∧
    (run env s es).statusListeners = s.statusListeners := by
  induction es generalizing s with
  | nil => exact ⟨rfl, rfl⟩
  | cons e es ih =>
    have h1 := stepL_listeners env s e
    have h2 := stepL_statusListeners env s e
    have hrun : run env s (e :: es) = run env (stepL env s e) es := rfl
    rw [hrun]
    rcases ih (stepL env s e) with ⟨ha, hb⟩
    exact ⟨ha.trans h1, hb.trans h2⟩

/-- Helper: `disconnect()` sets the manual flag. -/
theorem disconnect_isManuallyDisconnected (env : Env) (s : WSState) :
    (disconnect env s).isManuallyDisconnected = true := by
  unfold disconnect stopHeartbeat
  cases hws : s.ws <;> simp [hws]

/-- Helper: `disconnect()` nulls the socket field. -/
theorem disconnect_ws (env : Env) (s : WSState) : (disconnect env s).ws = none := by
  unfold disconnect stopHeartbeat
  cases hws : s.ws <;> simp [hws]

/-- Helper: `disconnect()` ends in the `disconnected` status. -/
theorem disconnect_connectionStatus (env : Env) (s : WSState) :
    (disconnect env s).connectionStatus = Status.disconnected := by
  unfold disconnect stopHeartbeat
  cases hws : s.ws <;> simp [hws, setStatus_connectionStatus]

/-- Helper: with the manual flag set and no socket, no automatic lifecycle
event clears the flag, recreates a socket, or makes a physical attempt. -/
theorem stepL_preserves_manual_halt (env : Env) (s : WSState) (e : LEvent)
    (hm : s.isManuallyDisconnected = true) (hw : s.ws = none)
    (he : e ≠ LEvent.connectReq) :
    (stepL env s e).isManuallyDisconnected = true ∧
    (stepL env s e).ws = none ∧
    (stepL env s e).attemptsMade = s.attemptsMade := by
  cases e with
  | connectReq => exact absurd rfl he
  | disconnectReq =>
    refine ⟨?_, ?_, ?_⟩ <;> simp [stepL, disconnect, stopHeartbeat, hw, hm]
  | openEvt =>
    refine ⟨?_, ?_, ?_⟩ <;> simp [stepL, onOpen, startHeartbeat, stopHeartbeat, hw, hm]
  | failEvt j =>
    refine ⟨?_, ?_, ?_⟩ <;>
      simp [stepL, handshakeFail, onErrorEvt, onErrorHandler, onCloseHandler,
        stopHeartbeat, hw, hm]
  | closeEvt wc =>
    refine ⟨?_, ?_, ?_⟩ <;> simp [stepL, onCloseHandler, stopHeartbeat, hm, hw]
  | errorEvt j =>
    refine ⟨?_, ?_, ?_⟩ <;> simp [stepL, onErrorEvt, onErrorHandler, stopHeartbeat, hm, hw]
  | timerEvt j =>
    cases hp : s.pendingTimer <;>
      refine ⟨?_, ?_, ?_⟩ <;> simp [stepL, timerFire, hp, hm, hw]
  | tickEvt =>
    cases hhb : s.heartbeatOn <;>
      refine ⟨?_, ?_, ?_⟩ <;> simp [stepL, heartbeatTick, hhb, hw, hm]
  | msgEvt m =>
    exact ⟨by simp [stepL, hm], by simp [stepL, hw], by simp [stepL]⟩

/-- Helper: the single-step halt invariant, folded over a whole run. -/
theorem run_preserves_manual_halt (env : Env) (s : WSState) (es : List LEvent)
    (hm : s.isManuallyDisconnected = true) (hw : s.ws = none)
    (he : ∀ e ∈ es, e ≠ LEvent.connectReq) :
    (run env s es).isManuallyDisconnected = true ∧
    (run env s es).ws = none ∧
    (run env s es).attemptsMade = s.attemptsMade := by
  induction es generalizing s with
  | nil => exact ⟨hm, hw, rfl⟩
  | cons e es ih =>
    have hstep := stepL_preserves_manual_halt env s e hm hw (he e (List.mem_cons_self e es))
    have hrun : run env s (e :: es) = run env (stepL env s e) es := rfl
    rw [hrun]
    rcases ih (stepL env s e) hstep.1 hstep.2.1
        (fun e' h' => he e' (List.mem_cons_of_mem e h')) with ⟨ha, hb, hc⟩
    exact ⟨ha, hb, hc.trans hstep.2.2⟩

/-- Claim C8 (confirmed): after an explicit `disconnect()` the service is in
the `disconnected` status with the manual flag set, and under every
subsequent sequence of automatic events — a reconnect timer already
scheduled during its wait window, socket close/error events, heartbeat
ticks, inbound messages; anything except a new manual `connect()` request —
the manual flag stays set, no socket exists, and no further physical
connection attempt is ever made. -/
theorem disconnect_suppresses_reconnection (env : Env) (s : WSState) (es : List LEvent)
    (he : ∀ e ∈ es, e ≠ LEvent.connectReq) :
    (disconnect env s).connectionStatus = Status.disconnected ∧
    (run env (disconnect env s) es).isManuallyDisconnected = true ∧
    (run env (disconnect env s) es).ws = none ∧
    (run env (disconnect env s) es).attemptsMade = s.attemptsMade := by
  have h3 := run_preserves_manual_halt env (disconnect env s) es
    (disconnect_isManuallyDisconnected env s) (disconnect_ws env s) he
  refine ⟨disconnect_connectionStatus env s, h3.1, h3.2.1, ?_⟩
  rw [h3.2.2]
  exact disconnect_attemptsMade env s

/-- A connecting service with a retry timer already scheduled, about to be
manually disconnected. -/
def sPend : WSState :=
  { initial with pendingTimer := true, ws := some { sid := 2, readyState := .CONNECTING },
                 connectionStatus := .connecting, attemptsMade := 3, nextSid := 3,
                 reconnectAttempts := 2 }

/-- Witness for `disconnect_suppresses_reconnection`: the already-scheduled
timer fires after `disconnect()`, together with a close event and a tick,
and no connection attempt results. -/
theorem disconnect_suppresses_reconnection_witness :
    (∀ e ∈ ([.timerEvt 0, .closeEvt false, .tickEvt] : List LEvent),
        e ≠ LEvent.connectReq) ∧
    ((disconnect envA sPend).connectionStatus = Status.disconnected ∧
      (run envA (disconnect envA sPend)
          [.timerEvt 0, .closeEvt false, .tickEvt]).isManuallyDisconnected = true ∧
      (run envA (disconnect envA sPend) [.timerEvt 0, .closeEvt false, .tickEvt]).ws = none ∧
      (run envA (disconnect envA sPend)
          [.timerEvt 0, .closeEvt false, .tickEvt]).attemptsMade = sPend.attemptsMade) :=
  ⟨by decide,
    disconnect_suppresses_reconnection envA sPend [.timerEvt 0, .closeEvt false, .tickEvt]
      (by decide)⟩

end WS
